import Mathlib

/-!
# Verification of the CampScheduler constraint model

Shallow embedding of `src/app/scheduler.py` (class `Scheduler`), of
`src/app/data_manager.py` (class `DataManager`) and of
`src/app/hyperparameters.py`.

Conventions of the embedding:
* pandas DataFrames become lists of rows (tuples or structures), keyed
  lookups (`df.loc[...].values[0]`) become `List.find?` on the row list
  (first matching row, as in the source);
* Python dicts become association lists, `d.get(k, [])` becomes
  `(l.find? ...).map (fun p => p.2) |>.getD []`;
* CP-SAT decision variables become total functions in an `Assignment`
  record; the model posted by `Scheduler.solve` becomes the satisfaction
  predicate `Satisfies` whose fields transcribe, one for one, the
  `model.Add(...)` calls of the source (reified `OnlyEnforceIf`
  constraints become implications in both polarities, exactly as posted);
* `Scheduler.solve` reads the module-level globals `time_slots`,
  `inspection_slots`, `leads_mapping` and `assists_mapping` (not the
  `self.*` attributes) in several constraints; those globals are the
  `Globals` record, kept separate from the constructor arguments `Input`.
-/

namespace CampScheduler

/-- A time slot `(day_name, period)` as used throughout the source. -/
abbrev TimeSlot := String × Nat

/-- One row of `activity_df` (columns used by the scheduler). -/
structure ActivityRow where
  activityID : Nat
  activityName : String
  numStaffReq : Nat
  maxStaff : Nat
  duration : Nat
  category : String
deriving DecidableEq

/-- The constructor arguments of `Scheduler.__init__` (the data the
instance stores on `self`). -/
structure Input where
  staff : List (Nat × String)
  activities : List ActivityRow
  locations : List (Nat × String)
  locOptions : List (Nat × Nat)
  groupIds : List Nat
  timeSlots : List TimeSlot
  staffOffTimeSlots : List (Nat × List TimeSlot)
  leadsMapping : List (Nat × List Nat)
  assistsMapping : List (Nat × List Nat)
  waterfrontSchedule : List (Nat × List TimeSlot)
  allowedDRDays : List String
  staffTrips : List (Nat × List (TimeSlot × String))
deriving DecidableEq

/-- The module-level globals of `scheduler.py` that `Scheduler.solve`
reads directly (`time_slots`, `inspection_slots`, `leads_mapping`,
`assists_mapping` are resolved to the module scope, not to `self.*`,
inside `solve`). -/
structure Globals where
  timeSlots : List TimeSlot
  inspectionSlots : List TimeSlot
  leadsMapping : List (Nat × List Nat)
  assistsMapping : List (Nat × List Nat)
deriving DecidableEq

/-- A valuation of the decision variables created by `Scheduler.solve`
(solver output restricted to the decision variables; the purely
objective-side auxiliary variables, whose defining equalities determine
them from these, are omitted). -/
structure Assignment where
  x : Nat → Nat → TimeSlot → Nat → Bool
  y : Nat → Nat → TimeSlot → Nat → Bool
  staffCount : Nat → TimeSlot → Nat → Nat
  chosen : Nat → TimeSlot → Nat → Bool
  gt : TimeSlot → Nat → Bool
  insp : Nat → TimeSlot → Bool
  drd : Nat → String → Bool
  drs : Nat → String → Nat → Bool
  trp : Nat → TimeSlot → String → Bool
  wsd : Nat → String → Bool

/-- Sum of `f` over a list (the `sum(...)` generator expressions). -/
def listSum (l : List α) (f : α → Nat) : Nat := (l.map f).sum

/-- `staff_df["staffID"].tolist()`. -/
def staffIds (inp : Input) : List Nat := inp.staff.map (fun p => p.1)

/-- `activity_df["activityID"].tolist()`. -/
def activityIds (inp : Input) : List Nat := inp.activities.map (fun r => r.activityID)

/-- `location_df["locID"].tolist()`. -/
def locationIds (inp : Input) : List Nat := inp.locations.map (fun p => p.1)

/-- `staff_df.loc[staff_df["staffID"] == i, "staffName"].values[0]`. -/
def staffName (inp : Input) (i : Nat) : String :=
  ((inp.staff.find? (fun p => p.1 == i)).map (fun p => p.2)).getD ""

/-- `activity_df.loc[activity_df["activityID"] == j, "activityName"].values[0]`. -/
def activityName (inp : Input) (j : Nat) : String :=
  ((inp.activities.find? (fun r => r.activityID == j)).map (fun r => r.activityName)).getD ""

/-- `location_df.loc[location_df["locID"] == l, "locName"].values[0]`. -/
def locName (inp : Input) (l : Nat) : String :=
  ((inp.locations.find? (fun p => p.1 == l)).map (fun p => p.2)).getD ""

/-- `activity_df.loc[activity_df["activityID"] == j, "numStaffReq"].values[0]`. -/
def numStaffReq (inp : Input) (j : Nat) : Nat :=
  ((inp.activities.find? (fun r => r.activityID == j)).map (fun r => r.numStaffReq)).getD 0

/-- `activity_df.loc[activity_df["activityID"] == j, "maxStaff"].values[0]`. -/
def maxStaff (inp : Input) (j : Nat) : Nat :=
  ((inp.activities.find? (fun r => r.activityID == j)).map (fun r => r.maxStaff)).getD 0

/-- `activity_df.loc[activity_df["activityID"] == j, "duration"].iloc[0]`. -/
def activityDuration (inp : Input) (j : Nat) : Nat :=
  ((inp.activities.find? (fun r => r.activityID == j)).map (fun r => r.duration)).getD 0

/-- `location_options_df.groupby("activityID")["locID"].apply(list).to_dict()`
followed by `.get(j, [])`: the `locID`s of the rows whose `activityID` is
`j`, in row order. -/
def validLocations (inp : Input) (j : Nat) : List Nat :=
  (inp.locOptions.filter (fun p => p.1 == j)).map (fun p => p.2)

/-- `self.staff_off_time_slots.get(i, [])`. -/
def offSlots (inp : Input) (i : Nat) : List TimeSlot :=
  ((inp.staffOffTimeSlots.find? (fun p => p.1 == i)).map (fun p => p.2)).getD []

/-- `self.staff_trips.get(i, [])` (and the `i not in self.staff_trips`
guards, which make a missing key behave like `[]`). -/
def tripsOf (inp : Input) (i : Nat) : List (TimeSlot × String) :=
  ((inp.staffTrips.find? (fun p => p.1 == i)).map (fun p => p.2)).getD []

/-- `mapping.get(i, [])` for the leads/assists dictionaries. -/
def qualOf (m : List (Nat × List Nat)) (i : Nat) : List Nat :=
  ((m.find? (fun p => p.1 == i)).map (fun p => p.2)).getD []

/-- `set(leads_mapping.get(i,[])) | set(assists_mapping.get(i,[]))` built
from the module globals (constraint 9 resolves the bare names
`leads_mapping` / `assists_mapping` to module scope). Membership in the
appended list coincides with membership in the Python set union. -/
def canParticipate (glob : Globals) (i : Nat) : List Nat :=
  qualOf glob.leadsMapping i ++ qualOf glob.assistsMapping i

/-- `self.waterfront_schedule[g]`, with `[]` for a missing key (the
source raises `KeyError` in constraint 5 for a missing group and uses
`.get(g, [])` in constraint 11A; supported inputs list every group). -/
def wfGet (inp : Input) (g : Nat) : List TimeSlot :=
  ((inp.waterfrontSchedule.find? (fun p => p.1 == g)).map (fun p => p.2)).getD []

/-- Activity-ID lookup by name: `activity_df.loc[activity_df["activityName"] == name,
"activityID"].values[0]` (`0` stands for the `IndexError` case of a
missing well-known activity; supported inputs contain it). -/
def activityIdByName (inp : Input) (name : String) : Nat :=
  ((inp.activities.find? (fun r => r.activityName == name)).map (fun r => r.activityID)).getD 0

def waterfrontId (inp : Input) : Nat := activityIdByName inp "waterfront"

def golfId (inp : Input) : Nat := activityIdByName inp "golf"

def tennisId (inp : Input) : Nat := activityIdByName inp "tennis"

/-- Character-wise lower-casing (`str.lower()`; equivalent to
`String.toLower`, written via the character list so that it evaluates by
kernel reduction). -/
def lowerName (s : String) : String := ⟨s.data.map Char.toLower⟩

/-- The waterskiing lookup is case-insensitive in the source
(`activity_df["activityName"].str.lower() == "waterskiing"`). -/
def waterskiingId (inp : Input) : Nat :=
  ((inp.activities.find? (fun r => lowerName r.activityName == "waterskiing")).map
    (fun r => r.activityID)).getD 0

def drivingRangeId (inp : Input) : Nat := activityIdByName inp "driving range"

/-- The hard-coded `days` lists of constraints 14, 15 and 11B. -/
def sixDays : List String :=
  ["Monday", "Tuesday", "Wednesday", "Thursday", "Friday", "Saturday"]

/-- Constraint 11B preprocessing: `waterski_slots_by_day[d]`, the
`(slot, group)` pairs of the waterfront schedule whose day is `d`, in
dictionary-item order then slot order. -/
def wsSlotsByDay (inp : Input) (d : String) : List (TimeSlot × Nat) :=
  inp.waterfrontSchedule.flatMap
    (fun p => (p.2.filter (fun s => s.1 == d)).map (fun s => (s, p.1)))

/-- `days = list(set(k[0] for k in self.time_slots))` of constraint 25
(as a value set; list order is irrelevant to the posted constraints). -/
def daysOf (inp : Input) : List String := (inp.timeSlots.map (fun k => k.1)).dedup

/-- `periods = list(set(k[1] for k in self.time_slots))` of constraint 25. -/
def periodsOf (inp : Input) : List Nat := (inp.timeSlots.map (fun k => k.2)).dedup

/-- The constraints posted by `Scheduler.solve`, transcribed one field per
`model.Add` family, in source order.  `A` satisfies this predicate exactly
when it restricts a solution of the CP-SAT model built by `solve` on
constructor data `inp` under module globals `glob`.  Constraint numbers
follow the source comments; `link` is the `staff_count == sum(staff_assign)`
equality posted at variable-creation time. -/
structure Satisfies (inp : Input) (glob : Globals) (A : Assignment) : Prop where
  link : ∀ g ∈ inp.groupIds, ∀ j ∈ activityIds inp, ∀ k ∈ inp.timeSlots,
    A.staffCount j k g = listSum (staffIds inp) (fun i => (A.x i j k g).toNat)
  c1 : ∀ j ∈ activityIds inp, ∀ k ∈ inp.timeSlots,
    listSum inp.groupIds (fun g => (A.chosen j k g).toNat) ≤ 1
  c2 : ∀ i ∈ staffIds inp, ∀ k ∈ inp.timeSlots,
    listSum (activityIds inp)
      (fun j => listSum inp.groupIds (fun g => (A.x i j k g).toNat)) ≤ 1
  c3 : ∀ l ∈ locationIds inp, ∀ k ∈ inp.timeSlots,
    listSum (activityIds inp)
      (fun j => listSum inp.groupIds (fun g => (A.y l j k g).toNat)) ≤ 1
  c4 : ∀ g ∈ inp.groupIds, ∀ j ∈ activityIds inp, ∀ k ∈ inp.timeSlots,
    listSum (validLocations inp j) (fun l => (A.y l j k g).toNat)
      = (A.chosen j k g).toNat
  c5 : ∀ g ∈ inp.groupIds, ∀ k ∈ inp.timeSlots, k ∉ wfGet inp g →
    (A.gt k g = false →
      listSum (activityIds inp) (fun j => (A.chosen j k g).toNat) = 4) ∧
    (A.gt k g = true →
      listSum (activityIds inp) (fun j => (A.chosen j k g).toNat) = 2)
  c6a : ∀ g ∈ inp.groupIds, ∀ j ∈ activityIds inp, ∀ k ∈ inp.timeSlots,
    A.chosen j k g = true →
      listSum (locationIds inp) (fun l => (A.y l j k g).toNat) = 1
  c6b : ∀ g ∈ inp.groupIds, ∀ j ∈ activityIds inp, ∀ k ∈ inp.timeSlots,
    A.chosen j k g = false →
      listSum (locationIds inp) (fun l => (A.y l j k g).toNat) = 0
  c6c : ∀ g ∈ inp.groupIds, ∀ j ∈ activityIds inp, ∀ k ∈ inp.timeSlots,
    ∀ l ∈ locationIds inp, A.y l j k g = true → 0 < A.staffCount j k g
  c6d : ∀ g ∈ inp.groupIds, ∀ j ∈ activityIds inp, ∀ k ∈ inp.timeSlots,
    ∀ l ∈ locationIds inp, A.chosen j k g = false → A.y l j k g = false
  c7a : ∀ i ∈ staffIds inp, ∀ k ∈ offSlots inp i, ∀ j ∈ activityIds inp,
    ∀ g ∈ inp.groupIds, A.x i j k g = false
  c7b : ∀ i ∈ staffIds inp, ∀ k ∈ offSlots inp i,
    k ∈ glob.inspectionSlots → A.insp i k = false
  c8a : ∀ g ∈ inp.groupIds, ∀ j ∈ activityIds inp, ∀ k ∈ inp.timeSlots,
    A.chosen j k g = true → numStaffReq inp j ≤ A.staffCount j k g
  c8b : ∀ g ∈ inp.groupIds, ∀ j ∈ activityIds inp, ∀ k ∈ inp.timeSlots,
    A.chosen j k g = false → A.staffCount j k g = 0
  c9 : ∀ g ∈ inp.groupIds, ∀ i ∈ staffIds inp, ∀ j ∈ activityIds inp,
    ∀ k ∈ inp.timeSlots, j ∉ canParticipate glob i → A.x i j k g = false
  c10 : ∀ g ∈ inp.groupIds, ∀ j ∈ activityIds inp, ∀ k ∈ inp.timeSlots,
    A.chosen j k g = true →
      1 ≤ listSum ((staffIds inp).filter (fun i => (qualOf glob.leadsMapping i).contains j))
            (fun i => (A.x i j k g).toNat)
  c11 : ∀ p ∈ inp.waterfrontSchedule, ∀ k ∈ p.2,
    A.chosen (waterfrontId inp) k p.1 = true ∧
    A.chosen (waterskiingId inp) k p.1 = true ∧
    listSum (activityIds inp) (fun j => (A.chosen j k p.1).toNat) = 2
  c12 : ∀ g ∈ inp.groupIds, ∀ k ∈ glob.timeSlots,
    (A.gt k g = true →
      listSum (activityIds inp) (fun j => (A.chosen j k g).toNat) = 2 ∧
      (A.chosen (golfId inp) k g).toNat + (A.chosen (tennisId inp) k g).toNat = 2) ∧
    (A.gt k g = false →
      (A.chosen (golfId inp) k g).toNat + (A.chosen (tennisId inp) k g).toNat ≤ 1)
  c13 : ∀ g ∈ inp.groupIds,
    2 ≤ listSum glob.timeSlots (fun k => (A.gt k g).toNat)
  c14 : ∀ g ∈ inp.groupIds, ∀ d ∈ sixDays,
    listSum (glob.timeSlots.filter (fun k => k.1 == d)) (fun k => (A.gt k g).toNat) ≤ 1
  c15 : ∀ d ∈ sixDays,
    listSum (staffIds inp) (fun i => (A.insp i (d, 1)).toNat) = 1
  c16 : ∀ i ∈ staffIds inp, ∀ k ∈ glob.timeSlots, k.2 = 1 →
    listSum (activityIds inp)
      (fun j => listSum inp.groupIds (fun g => (A.x i j k g).toNat))
      + (A.insp i k).toNat ≤ 1
  c17 : ∀ g ∈ inp.groupIds,
    listSum inp.allowedDRDays (fun d => (A.drd g d).toNat) = 1
  c18 : ∀ g ∈ inp.groupIds, ∀ k ∈ inp.timeSlots,
    (k.1 ∉ inp.allowedDRDays ∨ k.2 ∉ ([1, 2] : List Nat)) →
      A.chosen (drivingRangeId inp) k g = false
  c19 : ∀ g ∈ inp.groupIds, ∀ d ∈ inp.allowedDRDays,
    (A.drd g d = true →
      A.chosen (drivingRangeId inp) (d, 1) g = true ∧
      A.chosen (drivingRangeId inp) (d, 2) g = true) ∧
    (A.drd g d = false →
      A.chosen (drivingRangeId inp) (d, 1) g = false ∧
      A.chosen (drivingRangeId inp) (d, 2) g = false)
  c20 : ∀ g ∈ inp.groupIds, ∀ d ∈ inp.allowedDRDays,
    (A.drd g d = true → 1 ≤ listSum (staffIds inp) (fun i => (A.drs g d i).toNat)) ∧
    (A.drd g d = false → listSum (staffIds inp) (fun i => (A.drs g d i).toNat) = 0)
  c21 : ∀ g ∈ inp.groupIds, ∀ d ∈ inp.allowedDRDays, ∀ i ∈ staffIds inp,
    (A.drd g d = true →
      A.x i (drivingRangeId inp) (d, 1) g = A.drs g d i ∧
      A.x i (drivingRangeId inp) (d, 2) g = A.drs g d i) ∧
    (A.drd g d = false →
      A.x i (drivingRangeId inp) (d, 1) g = false ∧
      A.x i (drivingRangeId inp) (d, 2) g = false)
  c22 : ∀ g ∈ inp.groupIds, ∀ d ∈ inp.allowedDRDays, ∀ i ∈ staffIds inp,
    ((d, 1) ∈ offSlots inp i ∨ (d, 2) ∈ offSlots inp i) → A.drs g d i = false
  c23 : ∀ i ∈ staffIds inp, ∀ p ∈ tripsOf inp i, A.trp i p.1 p.2 = true
  c24 : ∀ i ∈ staffIds inp, ∀ p ∈ tripsOf inp i, A.trp i p.1 p.2 = true →
    listSum (activityIds inp)
      (fun j => listSum inp.groupIds (fun g => (A.x i j p.1 g).toNat)) = 0 ∧
    (p.1 ∈ glob.inspectionSlots → A.insp i p.1 = false)
  c25 : ∀ g ∈ inp.groupIds, ∀ j ∈ activityIds inp, activityDuration inp j ≤ 1 →
    ∀ d ∈ daysOf inp,
      listSum ((periodsOf inp).filter (fun p => inp.timeSlots.contains (d, p)))
        (fun p => (A.chosen j (d, p) g).toNat) ≤ 1
  c26 : ∀ j ∈ activityIds inp, ∀ g ∈ inp.groupIds, ∀ k ∈ inp.timeSlots,
    A.staffCount j k g ≤ maxStaff inp j
  c11A : ∀ g ∈ inp.groupIds, ∀ k ∈ inp.timeSlots, k ∉ wfGet inp g →
    A.chosen (waterskiingId inp) k g = false
  c11B : ∀ i ∈ staffIds inp, ∀ d ∈ sixDays,
    (∀ q ∈ wsSlotsByDay inp d, A.x i (waterskiingId inp) q.1 q.2 = A.wsd i d) ∧
    (wsSlotsByDay inp d = [] → A.wsd i d = false)

/-! ## Solution extraction (`EXTRACT RESULTS` section of `Scheduler.solve`) -/

/-- One emitted schedule entry
`{activity, staff:[name,…], location, time_slot, group}`.  The `group`
field is the group id for activity and driving-range entries and the
string `"NA"` for inspection and trip entries; `none` encodes `"NA"`. -/
structure Entry where
  activity : String
  staff : List String
  location : String
  time_slot : TimeSlot
  group : Option Nat
deriving DecidableEq

/-- `[i for i in staff_ids if solver.Value(staff_assign[i, j, k, g]) == 1]`. -/
def assignedStaffIds (inp : Input) (A : Assignment) (j : Nat) (k : TimeSlot) (g : Nat) :
    List Nat :=
  (staffIds inp).filter (fun i => A.x i j k g)

/-- The `for l in location_ids: if solver.Value(loc_assign[...]) == 1: break`
search: the first location with `Y = 1`. -/
def assignedLoc (inp : Input) (A : Assignment) (j : Nat) (k : TimeSlot) (g : Nat) :
    Option Nat :=
  (locationIds inp).find? (fun l => A.y l j k g)

/-- The entry appended for a regular activity `(g, j, k)` with staff: name
list in `staff_ids` order, location name of the first assigned location. -/
def mkRegularEntry (inp : Input) (A : Assignment) (g j : Nat) (k : TimeSlot) : Entry :=
  ⟨activityName inp j,
   (assignedStaffIds inp A j k g).map (staffName inp),
   ((assignedLoc inp A j k g).map (locName inp)).getD "",
   k, some g⟩

/-- The `(g, j, k)` triples for which the regular-activity loop appends an
entry, in loop order: groups outermost, then activities (skipping
`driving_range_id`), then `self.time_slots`, keeping triples with at
least one assigned staff. -/
def regularTriples (inp : Input) (A : Assignment) : List (Nat × Nat × TimeSlot) :=
  inp.groupIds.flatMap (fun g =>
    (activityIds inp).flatMap (fun j =>
      if j = drivingRangeId inp then []
      else (inp.timeSlots.filter
              (fun k => !(assignedStaffIds inp A j k g).isEmpty)).map
             (fun k => (g, j, k))))

/-- The regular-activity segment of the emitted schedule. -/
def regularEntries (inp : Input) (A : Assignment) : List Entry :=
  (regularTriples inp A).map (fun t => mkRegularEntry inp A t.1 t.2.1 t.2.2)

/-- The driving-range segment.  The source iterates `assigned_staff_ids`
rebinding `names` each time, so only the LAST assigned staff member's
name survives into the singleton staff list `[names]` of both entries
(`schedule.append({... "staff": [names] ...})`). -/
def drEntries (inp : Input) (A : Assignment) : List Entry :=
  inp.groupIds.flatMap (fun g =>
    inp.allowedDRDays.flatMap (fun day =>
      if A.drd g day then
        match ((staffIds inp).filter (fun i => A.drs g day i)).getLast? with
        | none => []
        | some i =>
          [⟨"driving range", [staffName inp i], "driving range", (day, 1), some g⟩,
           ⟨"driving range", [staffName inp i], "driving range", (day, 2), some g⟩]
      else []))

/-- The inspection segment: iterates the module-global `inspection_slots`
and takes `assigned_inspection_id[0]`, the first staff with `I = 1`. -/
def inspectionEntries (inp : Input) (glob : Globals) (A : Assignment) : List Entry :=
  glob.inspectionSlots.flatMap (fun k =>
    match ((staffIds inp).filter (fun i => A.insp i k)).head? with
    | none => []
    | some i => [⟨"inspection", [staffName inp i], "NA", k, none⟩])

/-- First-seen deduplication, the key order of a Python dict filled by
repeated `if key not in d: d[key] = []`. -/
def firstSeen [BEq α] (l : List α) : List α :=
  l.foldl (fun acc a => if acc.contains a then acc else acc ++ [a]) []

/-- The `(trip_name, slot)` keys of `trip_assignments` in insertion
order: staff-major over `staff_ids`, then each staff member's trip list. -/
def tripKeys (inp : Input) : List (String × TimeSlot) :=
  firstSeen ((staffIds inp).flatMap (fun i =>
    (tripsOf inp i).map (fun p => (p.2, p.1))))

/-- The trip segment: for each key, the staff appended to
`trip_assignments[key]` (staff-major, once per occurrence of the pair in
that staff member's trip list) filtered by `trip_assign == 1`; a key with
no selected staff produces no entry. -/
def tripEntries (inp : Input) (A : Assignment) : List Entry :=
  (tripKeys inp).filterMap (fun nk =>
    let sel := (staffIds inp).flatMap (fun i =>
      (tripsOf inp i).filterMap (fun p =>
        if p = (nk.2, nk.1) ∧ A.trp i nk.2 nk.1 then some i else none))
    if sel.isEmpty then none
    else some ⟨nk.1, sel.map (staffName inp), "NA", nk.2, none⟩)

/-- The full schedule list built by `Scheduler.solve` after a solution is
found: regular activities, then driving range, then inspections, then
trips, appended in that order. -/
def extractSchedule (inp : Input) (glob : Globals) (A : Assignment) : List Entry :=
  regularEntries inp A ++ drEntries inp A ++ inspectionEntries inp glob A
    ++ tripEntries inp A

/-! ## Solver driver (status handling at the end of `Scheduler.solve`) -/

/-- CP-SAT termination statuses distinguished by `solve`. -/
inductive CpStatus where
  | OPTIMAL
  | FEASIBLE
  | INFEASIBLE
  | MODEL_INVALID
  | UNKNOWN
deriving DecidableEq

/-- The return/raise behaviour of `Scheduler.solve`: the schedule is built
and returned when the status is `OPTIMAL` or `FEASIBLE`; otherwise
`raise ValueError("No feasible solution found.")` — modelled as
`Except.error` with the exception message. -/
def solveResult (inp : Input) (glob : Globals) (A : Assignment) (status : CpStatus) :
    Except String (List Entry) :=
  if status = CpStatus.OPTIMAL ∨ status = CpStatus.FEASIBLE then
    Except.ok (extractSchedule inp glob A)
  else
    Except.error "No feasible solution found."

/-! ## `hyperparameters.py` and the objective weights -/

/-- The four objective weights (Python floats; all values occurring in the
source are exact binary fractions, embedded as rationals). -/
structure OptimizationWeights where
  staff_diversity : ℚ
  group_diversity : ℚ
  group_weekly_diversity : ℚ
  unassigned_periods_balance : ℚ
deriving DecidableEq

/-- The default weights assigned by `Scheduler.__init__` when
`optimization_weights is None` (0.5, 1.0, 0.5, 0.25). -/
def defaultWeightsIfNone : OptimizationWeights :=
  ⟨1/2, 1, 1/2, 1/4⟩

/-- `self.optimization_weights` after `__init__`. -/
def schedulerWeights (o : Option OptimizationWeights) : OptimizationWeights :=
  o.getD defaultWeightsIfNone

/-- `hyperparameters.OPTIMIZATION_WEIGHTS` (0.25, 0.75, 0.75, 0.75) —
what the `__main__` block passes explicitly. -/
def OPTIMIZATION_WEIGHTS : OptimizationWeights :=
  ⟨1/4, 3/4, 3/4, 3/4⟩

/-- The minimized objective
`w_sd·REP − w_gd·CAT − w_gw·WKA + w_ub·UNB` as a function of the four
auxiliary objective totals. -/
def objectiveValue (w : OptimizationWeights) (rep cat wka unb : ℚ) : ℚ :=
  w.staff_diversity * rep - w.group_diversity * cat
    - w.group_weekly_diversity * wka + w.unassigned_periods_balance * unb

/-! ## Constraint 9 as posted (for the build-determinism claim)

Constraint 9 fixes `staff_assign[i,j,k,g]` to zero for unqualified pairs;
the qualification sets are read from the MODULE GLOBALS `leads_mapping` /
`assists_mapping` (bare names inside `solve`), not from the
`self.leads_mapping` / `self.assists_mapping` constructor data. -/

/-- The `(g, i, j, k)` tuples for which constraint 9 posts
`model.Add(staff_assign[i, j, k, g] == 0)`, in posting order. -/
def constraint9Posts (inp : Input) (glob : Globals) : List (Nat × Nat × Nat × TimeSlot) :=
  inp.groupIds.flatMap (fun g =>
    (staffIds inp).flatMap (fun i =>
      (activityIds inp).flatMap (fun j =>
        if j ∈ canParticipate glob i then []
        else inp.timeSlots.map (fun k => (g, i, j, k)))))

/-! ## `data_manager.py` -/

/-- `DataManager.validate_columns`: raises
`ValueError(f"Missing columns: {missing_cols}")` when any required column
is absent (message formatting abbreviated to the comma-separated column
names). -/
def validate_columns (df_cols required : List String) : Except String Unit :=
  let missing := required.filter (fun c => !(df_cols.contains c))
  if missing.isEmpty then Except.ok ()
  else Except.error ("Missing columns: " ++ String.intercalate ", " missing)

/-- The `column_requirements` table of `DataManager.validate_all`. -/
def column_requirements : List (String × List String) :=
  [("staff", ["staffID", "staffName"]),
   ("activity", ["activityID", "activityName", "numStaffReq", "duration"]),
   ("certs", ["certID", "certName", "activityID", "numStaffReq"]),
   ("leads", ["staffID", "activityID"]),
   ("assists", ["staffID", "activityID"]),
   ("certified", ["certID", "staffID"]),
   ("location", ["locID", "locName"]),
   ("locOptions", ["activityID", "locID"]),
   ("groups", ["groupID"]),
   ("offDays", ["staffID", "staffName", "date"]),
   ("trips", ["trip_name", "staffID", "staffName", "date", "start_period", "end_period"])]

/-- The console lines printed by `DataManager.validate_all`
(`dataframes` maps each loaded table name to its column list).  Each
`ValueError` from `validate_columns` is caught inside the loop and
printed; a missing table prints a skip message. -/
def validateAllMessages (dataframes : List (String × List String)) : List String :=
  column_requirements.filterMap (fun kr =>
    match dataframes.find? (fun q => q.1 == kr.1) with
    | some p =>
      match validate_columns p.2 kr.2 with
      | Except.ok _ => none
      | Except.error e => some ("Error validating " ++ kr.1 ++ ": " ++ e)
    | none => some ("DataFrame for " ++ kr.1 ++ " not loaded. Skipping validation"))

/-- `DataManager.validate_all`: every per-table error is caught and
printed inside the method, so it always returns normally (`Except.ok`,
carrying the printed lines); no exception propagates. -/
def validate_all (dataframes : List (String × List String)) :
    Except String (List String) :=
  Except.ok (validateAllMessages dataframes)

/-! ## A concrete input and solution

A small but fully constrained instance (1 group, 6 staff, 13 activities,
4 locations, the full 18-slot week) together with an assignment that
satisfies every posted constraint.  It exercises the waterfront pattern,
golf+tennis slots, a driving-range day with TWO assigned staff, and daily
inspections. -/

/-- The canonical 18-slot week (the `time_slots` list of `__main__`). -/
def mainTimeSlots : List TimeSlot :=
  [("Monday", 1), ("Monday", 2), ("Monday", 3),
   ("Tuesday", 1), ("Tuesday", 2), ("Tuesday", 3),
   ("Wednesday", 1), ("Wednesday", 2), ("Wednesday", 3),
   ("Thursday", 1), ("Thursday", 2), ("Thursday", 3),
   ("Friday", 1), ("Friday", 2), ("Friday", 3),
   ("Saturday", 1), ("Saturday", 2), ("Saturday", 3)]

/-- The `inspection_slots` list of `__main__`. -/
def mainInspectionSlots : List TimeSlot :=
  [("Monday", 1), ("Tuesday", 1), ("Wednesday", 1),
   ("Thursday", 1), ("Friday", 1), ("Saturday", 1)]

def staffW : List (Nat × String) :=
  [(1, "s1"), (2, "s2"), (3, "s3"), (4, "s4"), (5, "s5"), (6, "s6")]

def activitiesW : List ActivityRow :=
  [⟨1, "golf", 1, 6, 1, "sports"⟩,
   ⟨2, "tennis", 1, 6, 1, "sports"⟩,
   ⟨3, "waterfront", 1, 6, 1, "fixed"⟩,
   ⟨4, "waterskiing", 1, 6, 1, "fixed"⟩,
   ⟨5, "driving range", 1, 6, 2, "sports"⟩,
   ⟨6, "act6", 1, 6, 1, "general"⟩,
   ⟨7, "act7", 1, 6, 1, "general"⟩,
   ⟨8, "act8", 1, 6, 1, "general"⟩,
   ⟨9, "act9", 1, 6, 1, "general"⟩,
   ⟨10, "act10", 1, 6, 1, "general"⟩,
   ⟨11, "act11", 1, 6, 1, "general"⟩,
   ⟨12, "act12", 1, 6, 1, "general"⟩,
   ⟨13, "act13", 1, 6, 1, "general"⟩]

def locationsW : List (Nat × String) :=
  [(1, "loc1"), (2, "loc2"), (3, "loc3"), (4, "loc4")]

/-- Every activity may use every location. -/
def locOptionsW : List (Nat × Nat) :=
  (List.range 13).flatMap (fun jm =>
    (List.range 4).map (fun lm => (jm + 1, lm + 1)))

/-- Every staff member can lead every activity. -/
def leadsW : List (Nat × List Nat) :=
  (List.range 6).map (fun im => (im + 1, (List.range 13).map (fun jm => jm + 1)))

def waterfrontScheduleW : List (Nat × List TimeSlot) :=
  [(1, [("Tuesday", 3), ("Wednesday", 3), ("Friday", 3), ("Saturday", 3)])]

def inpW : Input :=
  ⟨staffW, activitiesW, locationsW, locOptionsW, [1], mainTimeSlots,
   [], leadsW, [], waterfrontScheduleW,
   ["Monday", "Tuesday", "Wednesday", "Thursday"], []⟩

def globW : Globals :=
  ⟨mainTimeSlots, mainInspectionSlots, leadsW, []⟩

/-- The chosen activities of each slot, in position order (positions give
the location and the staff member).  Waterfront slots hold
waterfront+waterskiing, Thursday/Friday period 2 are golf+tennis slots,
driving range (activity 5) spans Monday periods 1 and 2. -/
def slotActsW : TimeSlot → List Nat := fun k =>
  match k with
  | ("Monday", 1) => [6, 7, 8, 5]
  | ("Monday", 2) => [9, 10, 11, 5]
  | ("Monday", 3) => [12, 13, 1, 3]
  | ("Tuesday", 1) => [6, 7, 8, 9]
  | ("Tuesday", 2) => [10, 11, 12, 13]
  | ("Tuesday", 3) => [3, 4]
  | ("Wednesday", 1) => [6, 7, 8, 9]
  | ("Wednesday", 2) => [10, 11, 12, 13]
  | ("Wednesday", 3) => [3, 4]
  | ("Thursday", 1) => [6, 7, 8, 9]
  | ("Thursday", 2) => [1, 2]
  | ("Thursday", 3) => [10, 11, 12, 13]
  | ("Friday", 1) => [6, 7, 8, 9]
  | ("Friday", 2) => [1, 2]
  | ("Friday", 3) => [3, 4]
  | ("Saturday", 1) => [6, 7, 8, 9]
  | ("Saturday", 2) => [10, 11, 12, 13]
  | ("Saturday", 3) => [3, 4]
  | _ => []

/-- The witness solution: the activity at position `p` of a slot is run at
location `p+1` by staff `p+1`; driving range additionally takes staff 6;
staff 5 does every inspection; waterski duty (staff 2) is daily-consistent. -/
def AW : Assignment where
  x := fun i j k g =>
    g == 1 && (slotActsW k).contains j &&
      (i == (slotActsW k).indexOf j + 1 || (j == 5 && i == 6))
  y := fun l j k g =>
    g == 1 && (slotActsW k).contains j && l == (slotActsW k).indexOf j + 1
  staffCount := fun j k g =>
    if g == 1 && (slotActsW k).contains j then (if j == 5 then 2 else 1) else 0
  chosen := fun j k g => g == 1 && (slotActsW k).contains j
  gt := fun k g => g == 1 && (k == ("Thursday", 2) || k == ("Friday", 2))
  insp := fun i k => i == 5 && k.2 == 1
  drd := fun g d => g == 1 && d == "Monday"
  drs := fun g d i => g == 1 && d == "Monday" && (i == 4 || i == 6)
  trp := fun _ _ _ => false
  wsd := fun i d =>
    i == 2 && (d == "Tuesday" || d == "Wednesday" || d == "Friday" || d == "Saturday")

/-! ## Emission-order view of the extractor (for the ordering claim) -/

/-- All `(g, j, k)` triples in the nested-loop order of the
regular-activity extraction (groups, then activities, then slots). -/
def prodTriples (inp : Input) : List (Nat × Nat × TimeSlot) :=
  inp.groupIds.flatMap (fun g =>
    (activityIds inp).flatMap (fun j =>
      inp.timeSlots.map (fun k => (g, j, k))))

/-- Chronological position of a slot in the canonical week. -/
def slotPos (k : TimeSlot) : Nat := mainTimeSlots.indexOf k

/-- Necessary condition for the schedule list to be ordered by any
lexicographic key whose first component is the time slot: slot positions
are non-decreasing along the list. -/
abbrev slotMonotone (sch : List Entry) : Prop :=
  List.Pairwise (fun e1 e2 => slotPos e1.time_slot ≤ slotPos e2.time_slot) sch

/-! ## A minimal instance for the build-determinism claim -/

def inpC5 : Input :=
  ⟨[(1, "s1")], [⟨1, "arts", 1, 1, 1, "general"⟩], [(1, "loc1")], [(1, 1)],
   [1], [("Monday", 1)], [], [(1, [1])], [], [(1, [])], ["Monday"], []⟩

/-- Module globals of a run in which global `leads_mapping` qualifies
staff 1 for activity 1 (matching `inpC5.leadsMapping`). -/
def globC5a : Globals := ⟨[("Monday", 1)], [("Monday", 1)], [(1, [1])], []⟩

/-- Module globals of a run in which global `leads_mapping` is empty,
while the constructor arguments are still exactly `inpC5`. -/
def globC5b : Globals := ⟨[("Monday", 1)], [("Monday", 1)], [], []⟩

set_option maxRecDepth 100000

/-! ## Arithmetic helper lemmas about list sums of indicator values -/

theorem listSum_cons (b : α) (t : List α) (f : α → Nat) :
    listSum (b :: t) f = f b + listSum t f := by
  simp [listSum]

theorem mem_le_listSum {l : List α} {a : α} (f : α → Nat) (ha : a ∈ l) :
    f a ≤ listSum l f := by
  induction l with
  | nil => cases ha
  | cons b t ih =>
    rw [listSum_cons]
    rcases List.mem_cons.mp ha with rfl | ha
    · exact Nat.le_add_right _ _
    · exact Nat.le_trans (ih ha) (Nat.le_add_left _ _)

theorem listSum_eq_zero {l : List α} {f : α → Nat} (h : listSum l f = 0) :
    ∀ a ∈ l, f a = 0 := fun _ ha =>
  Nat.le_zero.mp (h ▸ mem_le_listSum f ha)

theorem exists_of_listSum_pos {l : List α} {f : α → Nat} (h : 0 < listSum l f) :
    ∃ a ∈ l, 0 < f a := by
  induction l with
  | nil => simp [listSum] at h
  | cons b t ih =>
    by_cases hb : 0 < f b
    · exact ⟨b, List.mem_cons_self _ _, hb⟩
    · have hb0 : f b = 0 := by omega
      have ht : 0 < listSum t f := by
        rw [listSum_cons, hb0] at h
        omega
      obtain ⟨a, ha, hfa⟩ := ih ht
      exact ⟨a, List.mem_cons_of_mem _ ha, hfa⟩

theorem pair_le_listSum {l : List α} {a b : α} (f : α → Nat)
    (ha : a ∈ l) (hb : b ∈ l) (hne : a ≠ b) :
    f a + f b ≤ listSum l f := by
  induction l with
  | nil => cases ha
  | cons c t ih =>
    rcases List.mem_cons.mp ha with rfl | ha2
    · have hb' : b ∈ t := by
        rcases List.mem_cons.mp hb with rfl | hb'
        · exact absurd rfl hne
        · exact hb'
      have h2 := mem_le_listSum f hb'
      rw [listSum_cons]
      omega
    · rcases List.mem_cons.mp hb with rfl | hb'
      · have h2 := mem_le_listSum f ha2
        rw [listSum_cons]
        omega
      · have h2 := ih ha2 hb'
        rw [listSum_cons]
        omega

theorem listSum_one_unique {l : List α} {f : α → Nat} (h : listSum l f = 1)
    {a b : α} (ha : a ∈ l) (hb : b ∈ l) (hfa : 0 < f a) (hfb : 0 < f b) :
    a = b := by
  by_contra hne
  have := pair_le_listSum f ha hb hne
  omega

theorem exists_unique_of_listSum_one {l : List α} {f : α → Bool}
    (h : listSum l (fun a => (f a).toNat) = 1) :
    ∃ a ∈ l, f a = true ∧ ∀ b ∈ l, f b = true → b = a := by
  have hpos : 0 < listSum l (fun a => (f a).toNat) := by rw [h]; exact Nat.one_pos
  obtain ⟨a, ha, hfa⟩ := exists_of_listSum_pos hpos
  refine ⟨a, ha, ?_, ?_⟩
  · cases hf : f a <;> simp [hf] at hfa ⊢
  · intro b hb hfb
    exact listSum_one_unique h hb ha (by simp [hfb]) hfa

theorem length_filter_eq_listSum (l : List α) (p : α → Bool) :
    (l.filter p).length = listSum l (fun a => (p a).toNat) := by
  induction l with
  | nil => rfl
  | cons b t ih =>
    rw [List.filter_cons, listSum_cons]
    cases hb : p b
    · simp [ih]
    · simp [ih, Nat.add_comm]

theorem toNat_pos_iff {b : Bool} : 0 < b.toNat ↔ b = true := by
  cases b <;> simp

/-- The witness assignment satisfies every constraint posted by
`Scheduler.solve` on `inpW` under `globW`: it is a genuine solution. -/
theorem satW : Satisfies inpW globW AW := by
  constructor
  all_goals decide

/-! ## Claim C1 -/

/-- C1 counterexample: on a non-OPTIMAL/non-FEASIBLE status,
`Scheduler.solve` raises `ValueError("No feasible solution found.")`
(modelled as `Except.error`) instead of returning the solver status as a
recoverable result; the same message is raised for every such status, so
the status is not even carried to the caller. -/
theorem c1_counterexample :
    solveResult inpW globW AW CpStatus.INFEASIBLE
      = Except.error "No feasible solution found." ∧
    solveResult inpW globW AW CpStatus.UNKNOWN
      = Except.error "No feasible solution found." ∧
    solveResult inpW globW AW CpStatus.MODEL_INVALID
      = Except.error "No feasible solution found." :=
  ⟨rfl, rfl, rfl⟩

/-- C1 (amended): for every status other than OPTIMAL and FEASIBLE,
`Scheduler.solve` raises `ValueError("No feasible solution found.")` and
never returns a (partial) schedule; the solver status itself is not
returned to the caller. -/
theorem c1_raises (inp : Input) (glob : Globals) (A : Assignment)
    (status : CpStatus) (h1 : status ≠ CpStatus.OPTIMAL)
    (h2 : status ≠ CpStatus.FEASIBLE) :
    solveResult inp glob A status = Except.error "No feasible solution found." := by
  unfold solveResult
  rw [if_neg]
  rintro (h | h)
  · exact h1 h
  · exact h2 h

/-- C1 witness: the amended statement at the INFEASIBLE status. -/
theorem c1_raises_witness :
    solveResult inpW globW AW CpStatus.INFEASIBLE
      = Except.error "No feasible solution found." :=
  c1_raises inpW globW AW CpStatus.INFEASIBLE (by decide) (by decide)

/-! ## Claim C2 -/

/-- C2: evaluation of the driving-range extractor at a genuine solution
(`satW`) in which TWO staff members (ids 4 and 6, names "s4" and "s6")
staff the driving range.  The extractor emits the two period entries but
their staff list is the singleton `["s6"]` — only the name bound in the
last iteration of the `for i in assigned_staff_ids` loop — instead of
`["s4", "s6"]`. -/
theorem c2_dr_staff_loss :
    Satisfies inpW globW AW ∧
    (staffIds inpW).filter (fun i => AW.drs 1 "Monday" i) = [4, 6] ∧
    drEntries inpW AW =
      [⟨"driving range", ["s6"], "driving range", ("Monday", 1), some 1⟩,
       ⟨"driving range", ["s6"], "driving range", ("Monday", 2), some 1⟩] :=
  ⟨satW, by decide, by decide⟩

/-! ## Claim C3 -/

/-- C3 counterexample: with the loaded `staff` table missing the required
`staffName` column, `DataManager.validate_all` returns normally
(`Except.ok`) — the `ValueError` raised by `validate_columns` is caught
and only printed — rather than propagating an error to the caller. -/
theorem c3_counterexample :
    (validate_all [("staff", ["staffID"])]).isOk = true ∧
    "Error validating staff: Missing columns: staffName"
      ∈ validateAllMessages [("staff", ["staffID"])] := by
  exact ⟨rfl, by decide⟩

/-- `validate_columns` raises exactly when some required column is
missing, and the raised message names the missing columns. -/
theorem validate_columns_error (cols req : List String)
    (h : (req.filter (fun c => !(cols.contains c))).isEmpty = false) :
    validate_columns cols req
      = Except.error ("Missing columns: "
          ++ String.intercalate ", " (req.filter (fun c => !(cols.contains c)))) := by
  simp only [validate_columns]
  rw [h]
  rfl

/-- C3 (amended): for a loaded table missing required columns,
`validate_columns` raises a `ValueError` naming exactly the missing
columns, but `validate_all` catches it, prints the message and continues:
`validate_all` always returns normally and no exception reaches the
caller. -/
theorem c3_swallows (dfs : List (String × List String))
    (kr : String × List String) (hkr : kr ∈ column_requirements)
    (p : String × List String)
    (hfind : dfs.find? (fun q => q.1 == kr.1) = some p)
    (hmiss : kr.2.filter (fun c => !(p.2.contains c)) ≠ []) :
    (validate_all dfs).isOk = true ∧
    ("Error validating " ++ kr.1 ++ ": "
        ++ ("Missing columns: "
             ++ String.intercalate ", " (kr.2.filter (fun c => !(p.2.contains c)))))
      ∈ validateAllMessages dfs := by
  refine ⟨rfl, ?_⟩
  apply List.mem_filterMap.mpr
  refine ⟨kr, hkr, ?_⟩
  rw [hfind]
  have hempty : (kr.2.filter (fun c => !(p.2.contains c))).isEmpty = false := by
    cases hcase : kr.2.filter (fun c => !(p.2.contains c)) with
    | nil => exact absurd hcase hmiss
    | cons hd tl => simp [hcase]
  show (match validate_columns p.2 kr.2 with
        | Except.ok _ => none
        | Except.error e => some ("Error validating " ++ kr.1 ++ ": " ++ e)) = _
  rw [validate_columns_error p.2 kr.2 hempty]

/-- C3 witness: the amended statement at the concrete one-table input. -/
theorem c3_swallows_witness :
    (validate_all [("staff", ["staffID"])]).isOk = true ∧
    ("Error validating " ++ "staff" ++ ": "
        ++ ("Missing columns: "
             ++ String.intercalate ", "
                  (["staffID", "staffName"].filter
                    (fun c => !((["staffID"] : List String).contains c)))))
      ∈ validateAllMessages [("staff", ["staffID"])] :=
  c3_swallows [("staff", ["staffID"])] ("staff", ["staffID", "staffName"])
    (by decide) ("staff", ["staffID"]) (by decide) (by decide)

/-! ## Claim C4 -/

/-- C4 counterexample: the weights `Scheduler.__init__` installs when
`optimization_weights is None` are not the
`hyperparameters.OPTIMIZATION_WEIGHTS` values (0.25, 0.75, 0.75, 0.75)
that the claim states. -/
theorem c4_counterexample :
    schedulerWeights none ≠ OPTIMIZATION_WEIGHTS ∧
    OPTIMIZATION_WEIGHTS
      = (⟨1/4, 3/4, 3/4, 3/4⟩ : OptimizationWeights) := by
  constructor
  · intro h
    have := congrArg OptimizationWeights.staff_diversity h
    norm_num [schedulerWeights, defaultWeightsIfNone, OPTIMIZATION_WEIGHTS] at this
  · rfl

/-- C4 (amended): with `optimization_weights=None` the scheduler uses the
`__init__` defaults staff_diversity=0.5, group_diversity=1.0,
group_weekly_diversity=0.5, unassigned_periods_balance=0.25, and the
minimized objective is
`0.5·REP − 1.0·CAT − 0.5·WKA + 0.25·UNB`; the claimed values
0.25/0.75/0.75/0.75 are `hyperparameters.OPTIMIZATION_WEIGHTS`, which the
`__main__` entry point passes explicitly. -/
theorem c4_default_weights :
    schedulerWeights none = defaultWeightsIfNone ∧
    defaultWeightsIfNone
      = (⟨1/2, 1, 1/2, 1/4⟩ : OptimizationWeights) ∧
    ∀ rep cat wka unb : ℚ,
      objectiveValue (schedulerWeights none) rep cat wka unb
        = (1/2) * rep - cat - (1/2) * wka + (1/4) * unb := by
  refine ⟨rfl, rfl, ?_⟩
  intro rep cat wka unb
  show (1/2 : ℚ) * rep - 1 * cat - (1/2) * wka + (1/4) * unb = _
  ring

/-! ## Claim C5 -/

/-- C5: the constraints `Scheduler.solve` posts are NOT a function of the
constructor arguments alone.  With the identical constructor input
`inpC5` (whose own `leadsMapping` qualifies staff 1 for activity 1),
constraint 9 posts nothing when the module global `leads_mapping` also
qualifies staff 1 (`globC5a`) but posts `staff_assign[1,1,k,1] == 0`
when the module global is empty (`globC5b`): `solve` reads the module
globals, not `self.leads_mapping` / `self.assists_mapping`. -/
theorem c5_globals_dependence :
    constraint9Posts inpC5 globC5a ≠ constraint9Posts inpC5 globC5b ∧
    constraint9Posts inpC5 globC5a = [] ∧
    constraint9Posts inpC5 globC5b = [(1, 1, 1, ("Monday", 1))] ∧
    globC5a.timeSlots = globC5b.timeSlots ∧
    globC5a.inspectionSlots = globC5b.inspectionSlots ∧
    inpC5.leadsMapping = [(1, [1])] := by
  refine ⟨by decide, by decide, by decide, rfl, rfl, rfl⟩

/-! ## Claim C6 -/

/-- C6: in every solution, for every group `g` and slot `k` of its
waterfront pattern both waterfront and waterskiing are chosen and the
total number of chosen activities at `(k, g)` is exactly 2; and
waterskiing is chosen in no slot outside the pattern. -/
theorem c6_waterfront_pattern (inp : Input) (glob : Globals) (A : Assignment)
    (h : Satisfies inp glob A) :
    (∀ p ∈ inp.waterfrontSchedule, ∀ k ∈ p.2,
      A.chosen (waterfrontId inp) k p.1 = true ∧
      A.chosen (waterskiingId inp) k p.1 = true ∧
      listSum (activityIds inp) (fun j => (A.chosen j k p.1).toNat) = 2) ∧
    (∀ g ∈ inp.groupIds, ∀ k ∈ inp.timeSlots, k ∉ wfGet inp g →
      A.chosen (waterskiingId inp) k g = false) :=
  ⟨h.c11, h.c11A⟩

/-- C6 witness: the waterfront-pattern facts at the concrete solution
`AW`, group 1, slot (Tuesday, 3), together with a confinement fact at the
non-pattern slot (Monday, 1). -/
theorem c6_witness :
    (AW.chosen (waterfrontId inpW) ("Tuesday", 3) 1 = true ∧
     AW.chosen (waterskiingId inpW) ("Tuesday", 3) 1 = true ∧
     listSum (activityIds inpW) (fun j => (AW.chosen j ("Tuesday", 3) 1).toNat) = 2) ∧
    AW.chosen (waterskiingId inpW) ("Monday", 1) 1 = false :=
  ⟨(c6_waterfront_pattern inpW globW AW satW).1
      (1, [("Tuesday", 3), ("Wednesday", 3), ("Friday", 3), ("Saturday", 3)])
      (by decide) ("Tuesday", 3) (by decide),
   (c6_waterfront_pattern inpW globW AW satW).2 1 (by decide) ("Monday", 1)
      (by decide) (by decide)⟩

/-! ## Claim C7 -/

/-- C7: in every solution, for every `(a, k, g)` the location variables
over `ValidLocations(a)` sum to `C[a,k,g]`, and every created location
variable outside `ValidLocations(a)` is zero (the latter following from
the valid-location equality combined with the linking constraint that the
sum over all locations equals `C`). -/
theorem c7_valid_location_selection (inp : Input) (glob : Globals) (A : Assignment)
    (h : Satisfies inp glob A) (g j : Nat) (k : TimeSlot)
    (hg : g ∈ inp.groupIds) (hj : j ∈ activityIds inp) (hk : k ∈ inp.timeSlots)
    (hsub : ∀ l ∈ validLocations inp j, l ∈ locationIds inp) :
    listSum (validLocations inp j) (fun l => (A.y l j k g).toNat)
      = (A.chosen j k g).toNat ∧
    ∀ l ∈ locationIds inp, l ∉ validLocations inp j → A.y l j k g = false := by
  refine ⟨h.c4 g hg j hj k hk, ?_⟩
  intro l hl hlv
  by_cases hc : A.chosen j k g = true
  · by_contra hy
    rw [Bool.not_eq_false] at hy
    have h4 := h.c4 g hg j hj k hk
    rw [hc] at h4
    have hpos : 0 < listSum (validLocations inp j) (fun l => (A.y l j k g).toNat) := by
      rw [h4]; exact Nat.one_pos
    obtain ⟨l', hl', hfl'⟩ := exists_of_listSum_pos hpos
    have hyl' : A.y l' j k g = true := toNat_pos_iff.mp hfl'
    have hne : l ≠ l' := fun e => hlv (e ▸ hl')
    have htwo := pair_le_listSum (fun l => (A.y l j k g).toNat) hl (hsub l' hl') hne
    have h6 := h.c6a g hg j hj k hk hc
    simp only [hy, hyl', Bool.toNat_true] at htwo
    omega
  · exact h.c6d g hg j hj k hk l hl (Bool.not_eq_true _ ▸ hc)

/-- C7 witness: the statement at the concrete solution `AW` for group 1,
activity 1 (golf), slot (Monday, 3). -/
theorem c7_witness :
    listSum (validLocations inpW 1) (fun l => (AW.y l 1 ("Monday", 3) 1).toNat)
      = (AW.chosen 1 ("Monday", 3) 1).toNat ∧
    ∀ l ∈ locationIds inpW, l ∉ validLocations inpW 1 →
      AW.y l 1 ("Monday", 3) 1 = false :=
  c7_valid_location_selection inpW globW AW satW 1 1 ("Monday", 3)
    (by decide) (by decide) (by decide) (by decide)

/-! ## Claim C8 -/

/-- C8: in every solution, for every group `g` exactly one allowed day
`d` has `DRD[g,d]=1`; driving range is chosen at `(d,1)` and `(d,2)` and
in no other slot of the week; for every staff member,
`X[s,dr,(d,1),g] = X[s,dr,(d,2),g] = DRS[g,d,s]` on the chosen day and
both `X` values and `DRS` are zero on every non-chosen allowed day; and
at least one staff member has `DRS[g,d,s]=1` on the chosen day. -/
theorem c8_driving_range (inp : Input) (glob : Globals) (A : Assignment)
    (h : Satisfies inp glob A) (g : Nat) (hg : g ∈ inp.groupIds) :
    ∃ d ∈ inp.allowedDRDays,
      A.drd g d = true ∧
      (∀ d' ∈ inp.allowedDRDays, A.drd g d' = true → d' = d) ∧
      A.chosen (drivingRangeId inp) (d, 1) g = true ∧
      A.chosen (drivingRangeId inp) (d, 2) g = true ∧
      (∀ k ∈ inp.timeSlots, k ≠ (d, 1) → k ≠ (d, 2) →
        A.chosen (drivingRangeId inp) k g = false) ∧
      (∀ i ∈ staffIds inp,
        A.x i (drivingRangeId inp) (d, 1) g = A.drs g d i ∧
        A.x i (drivingRangeId inp) (d, 2) g = A.drs g d i) ∧
      (∀ d' ∈ inp.allowedDRDays, A.drd g d' = false → ∀ i ∈ staffIds inp,
        A.x i (drivingRangeId inp) (d', 1) g = false ∧
        A.x i (drivingRangeId inp) (d', 2) g = false ∧
        A.drs g d' i = false) ∧
      (∃ i ∈ staffIds inp, A.drs g d i = true) := by
  obtain ⟨d, hd, hdrd, huniq⟩ := exists_unique_of_listSum_one (h.c17 g hg)
  have h19 := (h.c19 g hg d hd).1 hdrd
  refine ⟨d, hd, hdrd, huniq, h19.1, h19.2, ?_, ?_, ?_, ?_⟩
  · rintro ⟨day, p⟩ hk hk1 hk2
    by_cases hday : day ∈ inp.allowedDRDays
    · by_cases hp : p ∈ ([1, 2] : List Nat)
      · have hp' : p = 1 ∨ p = 2 := by simpa using hp
        have hdne : day ≠ d := by
          rintro rfl
          rcases hp' with rfl | rfl
          · exact hk1 rfl
          · exact hk2 rfl
        have hfalse : A.drd g day = false := by
          cases hb : A.drd g day
          · rfl
          · exact absurd (huniq day hday hb) hdne
        have h19n := (h.c19 g hg day hday).2 hfalse
        rcases hp' with rfl | rfl
        · exact h19n.1
        · exact h19n.2
      · exact h.c18 g hg (day, p) hk (Or.inr hp)
    · exact h.c18 g hg (day, p) hk (Or.inl hday)
  · intro i hi
    exact (h.c21 g hg d hd i hi).1 hdrd
  · intro d' hd' hfalse i hi
    have h21 := (h.c21 g hg d' hd' i hi).2 hfalse
    have h20 := (h.c20 g hg d' hd').2 hfalse
    have hdrs := listSum_eq_zero h20 i hi
    refine ⟨h21.1, h21.2, ?_⟩
    cases hb : A.drs g d' i
    · rfl
    · rw [hb] at hdrs; simp at hdrs
  · have h20 := (h.c20 g hg d hd).1 hdrd
    obtain ⟨i, hi, hfi⟩ := exists_of_listSum_pos (Nat.lt_of_lt_of_le Nat.zero_lt_one h20)
    exact ⟨i, hi, toNat_pos_iff.mp hfi⟩

/-- C8 witness: the statement at the concrete solution `AW`, group 1
(where the chosen day is Monday with staff 4 and 6). -/
theorem c8_witness :
    ∃ d ∈ inpW.allowedDRDays,
      AW.drd 1 d = true ∧
      (∀ d' ∈ inpW.allowedDRDays, AW.drd 1 d' = true → d' = d) ∧
      AW.chosen (drivingRangeId inpW) (d, 1) 1 = true ∧
      AW.chosen (drivingRangeId inpW) (d, 2) 1 = true ∧
      (∀ k ∈ inpW.timeSlots, k ≠ (d, 1) → k ≠ (d, 2) →
        AW.chosen (drivingRangeId inpW) k 1 = false) ∧
      (∀ i ∈ staffIds inpW,
        AW.x i (drivingRangeId inpW) (d, 1) 1 = AW.drs 1 d i ∧
        AW.x i (drivingRangeId inpW) (d, 2) 1 = AW.drs 1 d i) ∧
      (∀ d' ∈ inpW.allowedDRDays, AW.drd 1 d' = false → ∀ i ∈ staffIds inpW,
        AW.x i (drivingRangeId inpW) (d', 1) 1 = false ∧
        AW.x i (drivingRangeId inpW) (d', 2) 1 = false ∧
        AW.drs 1 d' i = false) ∧
      (∃ i ∈ staffIds inpW, AW.drs 1 d i = true) :=
  c8_driving_range inpW globW AW satW 1 (by decide)

/-! ## Claim C9 -/

theorem flatMap_sublist {l : List α} {f f' : α → List β}
    (h : ∀ a ∈ l, List.Sublist (f a) (f' a)) :
    List.Sublist (l.flatMap f) (l.flatMap f') := by
  induction l with
  | nil => simp
  | cons a t ih =>
    rw [List.flatMap_cons, List.flatMap_cons]
    exact (h a (List.mem_cons_self _ _)).append
      (ih (fun b hb => h b (List.mem_cons_of_mem _ hb)))

/-- C9 counterexample: at the genuine solution `AW` of `inpW` (proof
`satW`), the schedule returned by `Scheduler.solve` is not ordered by
any key beginning with the time slot — the slot positions of the emitted
entries are not monotone (golf at (Friday,2) is emitted before tennis at
(Thursday,2)) — so in particular it is not ordered by
(time_slot, group, activity, staff_name). -/
theorem c9_counterexample :
    Satisfies inpW globW AW ∧
    ¬ slotMonotone (extractSchedule inpW globW AW) :=
  ⟨satW, by decide⟩

/-- C9 (amended): `Scheduler.solve` returns the entries in deterministic
emission order — the regular-activity entries first, enumerated in the
nested-loop order groups / activities / time slots of the input lists
(their `(g, j, k)` triples form a sublist of the full loop product
`prodTriples`), followed by the driving-range, inspection and trip
segments; no sort by (time_slot, group, activity, staff_name) is applied
(the `__main__` caller sorts by time_slot and group afterwards). -/
theorem c9_emission_order (inp : Input) (glob : Globals) (A : Assignment) :
    extractSchedule inp glob A
      = regularEntries inp A ++ drEntries inp A ++ inspectionEntries inp glob A
          ++ tripEntries inp A ∧
    regularEntries inp A
      = (regularTriples inp A).map (fun t => mkRegularEntry inp A t.1 t.2.1 t.2.2) ∧
    List.Sublist (regularTriples inp A) (prodTriples inp) := by
  refine ⟨rfl, rfl, ?_⟩
  apply flatMap_sublist
  intro g _
  apply flatMap_sublist
  intro j _
  by_cases hdr : j = drivingRangeId inp
  · rw [if_pos hdr]
    exact List.nil_sublist _
  · rw [if_neg hdr]
    exact (List.filter_sublist _).map _

/-! ## Claim C10 -/

/-- Membership characterization of the emitted regular-activity triples. -/
theorem mem_regularTriples {inp : Input} {A : Assignment} {g j : Nat} {k : TimeSlot} :
    (g, j, k) ∈ regularTriples inp A ↔
      g ∈ inp.groupIds ∧ j ∈ activityIds inp ∧ j ≠ drivingRangeId inp ∧
      k ∈ inp.timeSlots ∧ assignedStaffIds inp A j k g ≠ [] := by
  constructor
  · intro hmem
    obtain ⟨g', hg', hm2⟩ := List.mem_flatMap.mp hmem
    obtain ⟨j', hj', hm3⟩ := List.mem_flatMap.mp hm2
    by_cases hdr : j' = drivingRangeId inp
    · rw [if_pos hdr] at hm3
      cases hm3
    · rw [if_neg hdr] at hm3
      obtain ⟨k', hk', heq⟩ := List.mem_map.mp hm3
      injection heq with h1 h23
      injection h23 with h2 h3
      subst h1; subst h2; subst h3
      have hfm := List.mem_filter.mp hk'
      refine ⟨hg', hj', hdr, hfm.1, ?_⟩
      intro e
      have hp := hfm.2
      rw [e] at hp
      simp at hp
  · rintro ⟨hg, hj, hjd, hk, hne⟩
    apply List.mem_flatMap.mpr
    refine ⟨g, hg, ?_⟩
    apply List.mem_flatMap.mpr
    refine ⟨j, hj, ?_⟩
    rw [if_neg hjd]
    apply List.mem_map.mpr
    refine ⟨k, ?_, rfl⟩
    apply List.mem_filter.mpr
    refine ⟨hk, ?_⟩
    cases hcase : assignedStaffIds inp A j k g with
    | nil => exact absurd hcase hne
    | cons a t => simp [hcase]

/-- C10: in every solution, a regular-activity entry is emitted for
`(g, a, k)` (with `a` not the driving range) exactly when `C[a,k,g]=1`;
each emitted entry carries a non-empty staff list whose length is the
staff count, lying between `numStaffReq(a)` and `maxStaff(a)`, and
exactly one assigned location (the unique location with `Y=1`). -/
theorem c10_regular_entries (inp : Input) (glob : Globals) (A : Assignment)
    (h : Satisfies inp glob A) (g j : Nat) (k : TimeSlot)
    (hg : g ∈ inp.groupIds) (hj : j ∈ activityIds inp)
    (hjd : j ≠ drivingRangeId inp) (hk : k ∈ inp.timeSlots) :
    ((g, j, k) ∈ regularTriples inp A ↔ A.chosen j k g = true) ∧
    (A.chosen j k g = true →
      (mkRegularEntry inp A g j k).staff ≠ [] ∧
      (mkRegularEntry inp A g j k).staff.length = A.staffCount j k g ∧
      numStaffReq inp j ≤ A.staffCount j k g ∧
      A.staffCount j k g ≤ maxStaff inp j ∧
      ∃ l ∈ locationIds inp, assignedLoc inp A j k g = some l ∧
        A.y l j k g = true ∧
        ∀ m ∈ locationIds inp, A.y m j k g = true → m = l) := by
  have hlink := h.link g hg j hj k hk
  have hne_of_chosen : A.chosen j k g = true → assignedStaffIds inp A j k g ≠ [] := by
    intro hc
    have h6 := h.c6a g hg j hj k hk hc
    have hpos : 0 < listSum (locationIds inp) (fun l => (A.y l j k g).toNat) := by
      rw [h6]; exact Nat.one_pos
    obtain ⟨l0, hl0, hyl0⟩ := exists_of_listSum_pos hpos
    have hsc := h.c6c g hg j hj k hk l0 hl0 (toNat_pos_iff.mp hyl0)
    rw [hlink] at hsc
    obtain ⟨i, hi, hxi⟩ := exists_of_listSum_pos hsc
    exact List.ne_nil_of_mem
      (List.mem_filter.mpr ⟨hi, toNat_pos_iff.mp hxi⟩)
  constructor
  · rw [mem_regularTriples]
    constructor
    · rintro ⟨-, -, -, -, hne⟩
      by_contra hc
      rw [Bool.not_eq_true] at hc
      have h8 := h.c8b g hg j hj k hk hc
      have hs : listSum (staffIds inp) (fun i => (A.x i j k g).toNat) = 0 :=
        hlink.symm.trans h8
      apply hne
      apply List.filter_eq_nil_iff.mpr
      intro i hi
      have hz := listSum_eq_zero hs i hi
      cases hx : A.x i j k g
      · simp
      · rw [hx] at hz; simp at hz
    · intro hc
      exact ⟨hg, hj, hjd, hk, hne_of_chosen hc⟩
  · intro hc
    have hlen : (mkRegularEntry inp A g j k).staff.length = A.staffCount j k g := by
      show ((assignedStaffIds inp A j k g).map (staffName inp)).length = _
      rw [List.length_map, hlink]
      exact length_filter_eq_listSum _ _
    refine ⟨?_, hlen, h.c8a g hg j hj k hk hc, h.c26 j hj g hg k hk, ?_⟩
    · intro e
      have e2 : (assignedStaffIds inp A j k g).map (staffName inp) = [] := e
      exact hne_of_chosen hc (List.map_eq_nil_iff.mp e2)
    · have h6 := h.c6a g hg j hj k hk hc
      obtain ⟨l, hl, hyl, huniq⟩ :=
        exists_unique_of_listSum_one (f := fun l => A.y l j k g) h6
      cases hfind : (locationIds inp).find? (fun l => A.y l j k g) with
      | none =>
        exfalso
        have hnone := List.find?_eq_none.mp hfind l hl
        rw [hyl] at hnone
        exact hnone rfl
      | some l0 =>
        have hp : A.y l0 j k g = true := by simpa using List.find?_some hfind
        have hm : l0 ∈ locationIds inp := List.mem_of_find?_eq_some hfind
        refine ⟨l0, hm, hfind, hp, ?_⟩
        intro m hm' hym
        exact (huniq m hm' hym).trans (huniq l0 hm hp).symm

/-- C10 witness: the statement at the concrete solution `AW` for group 1,
activity 6, slot (Monday, 1). -/
theorem c10_witness :
    ((1, 6, ("Monday", 1)) ∈ regularTriples inpW AW ↔
      AW.chosen 6 ("Monday", 1) 1 = true) ∧
    (AW.chosen 6 ("Monday", 1) 1 = true →
      (mkRegularEntry inpW AW 1 6 ("Monday", 1)).staff ≠ [] ∧
      (mkRegularEntry inpW AW 1 6 ("Monday", 1)).staff.length
        = AW.staffCount 6 ("Monday", 1) 1 ∧
      numStaffReq inpW 6 ≤ AW.staffCount 6 ("Monday", 1) 1 ∧
      AW.staffCount 6 ("Monday", 1) 1 ≤ maxStaff inpW 6 ∧
      ∃ l ∈ locationIds inpW, assignedLoc inpW AW 6 ("Monday", 1) 1 = some l ∧
        AW.y l 6 ("Monday", 1) 1 = true ∧
        ∀ m ∈ locationIds inpW, AW.y m 6 ("Monday", 1) 1 = true → m = l) :=
  c10_regular_entries inpW globW AW satW 1 6 ("Monday", 1)
    (by decide) (by decide) (by decide) (by decide)

end CampScheduler
